import Mathlib

set_option maxRecDepth 8000

/-!
Shallow embedding of the GVA Data Architect dashboard logic: the incident
filter, the two CSV exporters, the AI gateway error handling, the chat
session lifecycle, and the chat send gating, translated from the
application source (the main React component, `services/gemini.ts`, and
`constants.ts`).
-/

/-- One reported incident, as in the static `MOCK_DATA` list in `constants.ts`. -/
structure IncidentRecord where
  date : String
  state : String
  city_county : String
  address : String
  killed : Nat
  injured : Nat
  source_link : Option String
deriving DecidableEq

/-- A cell of the 10-year review table: a number, or literal text such as
"Pending" (the table value type in `constants.ts` is `number | string`). -/
inductive SummaryCell where
  | num (n : Nat)
  | text (s : String)
deriving DecidableEq

/-- Shorthand for a row of purely numeric cells. -/
def nums (ns : List Nat) : List SummaryCell := ns.map SummaryCell.num

/-- The static `MOCK_DATA` incident sample from `constants.ts`. -/
def mockData : List IncidentRecord :=
  [⟨"Jan 8, 2025", "Illinois", "Chicago", "1200 Block of S Western Ave", 1, 3, some "/incident/123456"⟩,
   ⟨"Jan 8, 2025", "Texas", "Dallas", "Ross Ave", 0, 4, some "/incident/123459"⟩,
   ⟨"Jan 7, 2025", "California", "Los Angeles", "Wilshire Blvd", 0, 1, some "/incident/123457"⟩,
   ⟨"Jan 7, 2025", "Texas", "Houston", "Main Street", 2, 0, some "/incident/123458"⟩,
   ⟨"Jan 6, 2025", "Florida", "Miami", "Brickell Ave", 1, 1, some "/incident/123460"⟩,
   ⟨"Jan 6, 2025", "Illinois", "Rockford", "State St", 0, 2, some "/incident/123461"⟩,
   ⟨"Jan 5, 2025", "California", "Oakland", "Broadway", 3, 0, some "/incident/123462"⟩,
   ⟨"Jan 5, 2025", "Georgia", "Atlanta", "Peachtree St", 1, 5, some "/incident/123463"⟩,
   ⟨"Jan 4, 2025", "Ohio", "Cleveland", "Euclid Ave", 0, 1, some "/incident/123464"⟩,
   ⟨"Jan 4, 2025", "Pennsylvania", "Philadelphia", "Broad St", 2, 2, some "/incident/123465"⟩]

/-- The `years` of `GVA_10_YEAR_REVIEW` in `constants.ts`. -/
def gvaYears : List Nat := [2015, 2016, 2017, 2018, 2019, 2020, 2021, 2022, 2023, 2024]

/-- The `categories` of `GVA_10_YEAR_REVIEW` in `constants.ts`, in object
insertion order (the order `Object.entries` iterates). -/
def gvaCategories : List (String × List SummaryCell) :=
  [("Deaths (Willful/Accidental)", nums [13777, 15375, 15907, 15071, 15667, 19850, 21383, 20514, 19135, 16725]),
   ("Injuries (Willful/Accidental)", nums [26907, 30597, 31353, 28175, 30196, 39526, 40626, 38599, 36562, 31646]),
   ("Mass Shooting", nums [332, 383, 347, 335, 414, 611, 689, 644, 659, 503]),
   ("Mass Murder", nums [21, 25, 20, 19, 31, 21, 28, 36, 40, 30]),
   ("Children [0-11] Killed", nums [202, 231, 234, 198, 211, 303, 313, 314, 301, 250]),
   ("Children [0-11] Injured", nums [477, 434, 487, 464, 485, 701, 745, 679, 644, 547]),
   ("Teens [12-17] Killed", nums [626, 727, 823, 736, 795, 1105, 1278, 1392, 1407, 1171]),
   ("Teens [12-17] Injured", nums [2074, 2429, 2439, 2142, 2340, 3067, 3403, 3821, 3896, 3239]),
   ("OIS - Officer Killed", nums [40, 68, 49, 55, 69, 59, 68, 72, 53, 75]),
   ("OIS - Officer Injured", nums [275, 297, 286, 270, 295, 346, 370, 341, 369, 322]),
   ("OIS - Suspect Killed", nums [1007, 1152, 1232, 1273, 1290, 1299, 1326, 1397, 1444, 1445]),
   ("Defensive Gun Use", nums [1400, 1992, 2118, 1881, 1633, 1551, 1367, 1286, 1286, 1220]),
   ("Unintentional Shooting", nums [1995, 2236, 2070, 1693, 1906, 2328, 2022, 1648, 1611, 1436]),
   ("Suicide by Firearm (CDC)", nums [22018, 22938, 23854, 24432, 23941, 24292, 26328, 27038, 27310] ++ [SummaryCell.text "Pending"])]

/-- Boolean test that `p` is an initial segment of `s` (character lists). -/
def strHasPre : List Char → List Char → Bool
  | [], _ => true
  | _ :: _, [] => false
  | a :: ps, b :: ss => a == b && strHasPre ps ss

/-- Boolean test that `p` occurs contiguously inside `s` (character lists);
this is the semantics of JavaScript `String.prototype.includes`. -/
def subListB (p : List Char) : List Char → Bool
  | [] => strHasPre p []
  | b :: ss => strHasPre p (b :: ss) || subListB p ss

/-- `hay.includes(needle)` for strings. -/
def strIncludes (hay needle : String) : Bool := subListB needle.data hay.data

/-- JavaScript `String.prototype.toLowerCase`, as a character-wise map. -/
def jsToLower (s : String) : String := String.mk (s.data.map Char.toLower)

/-- The predicate of the `filteredIncidents` `useMemo`: lowercase both the
field and the query and test substring containment, for state and city. -/
def matchesFilters (stateQuery cityQuery : String) (item : IncidentRecord) : Bool :=
  strIncludes (jsToLower item.state) (jsToLower stateQuery) &&
    strIncludes (jsToLower item.city_county) (jsToLower cityQuery)

/-- `filteredIncidents` from the main component: `MOCK_DATA.filter(...)`,
generalized over the incident list it filters. -/
def filteredIncidents (data : List IncidentRecord) (stateQuery cityQuery : String) :
    List IncidentRecord :=
  data.filter (matchesFilters stateQuery cityQuery)

/-- JavaScript `Array.prototype.join(sep)`. -/
def joinSep (sep : String) : List String → String
  | [] => ""
  | [a] => a
  | a :: rest => a ++ sep ++ joinSep sep rest

/-- How `join` renders a table cell: numbers in decimal, text verbatim. -/
def renderCell : SummaryCell → String
  | .num n => toString n
  | .text s => s

/-- One line of the summary CSV, from the template literal in
`downloadSummaryCSV`: the quoted category, a comma, the joined values,
and a newline. -/
def summaryLine (cat : String) (vals : List SummaryCell) : String :=
  "\"" ++ cat ++ "\"" ++ "," ++ joinSep "," (vals.map renderCell) ++ "\n"

/-- The CSV text built by `downloadSummaryCSV`: the header line, then
`+=` of one line per category, in order. -/
def downloadSummaryCSVContent : String :=
  gvaCategories.foldl (fun acc p => acc ++ summaryLine p.1 p.2)
    ("Category," ++ joinSep "," (gvaYears.map toString) ++ "\n")

/-- Wrapping of a string-typed field in double quotes, as in the exporters. -/
def quoteWrap (s : String) : String := "\"" ++ s ++ "\""

/-- The `headers` array of `downloadFilteredIncidentsCSV`. -/
def incidentHeaders : List String := ["Date", "State", "City/County", "Address", "Killed", "Injured"]

/-- The cell array built for one incident in `downloadFilteredIncidentsCSV`:
the raw date, the quoted state, city and address, and the two counts. -/
def incidentCells (inc : IncidentRecord) : List String :=
  [inc.date, quoteWrap inc.state, quoteWrap inc.city_county, quoteWrap inc.address,
   toString inc.killed, toString inc.injured]

/-- The CSV text built by `downloadFilteredIncidentsCSV`:
`headers.join(',') + '\n' + rows.map(r => r.join(',')).join('\n')`. -/
def incidentsCSV (incs : List IncidentRecord) : String :=
  joinSep "," incidentHeaders ++ "\n" ++
    joinSep "\n" (incs.map fun inc => joinSep "," (incidentCells inc))

/-- The observable effect of `downloadFilteredIncidentsCSV`: on an empty
filtered list it returns early with no download; otherwise it downloads
a file named from the current date, containing the incident CSV. -/
def downloadFilteredIncidentsCSV (incidents : List IncidentRecord) (today : String) :
    Option (String × String) :=
  if incidents.length = 0 then none
  else some ("gva_filtered_incidents_" ++ today ++ ".csv", incidentsCSV incidents)

/-- The per-record line of the spec's incident CSV template,
written exactly as the template reads:
date, quoted state, quoted city, quoted address, killed, injured. -/
def specIncidentLine (inc : IncidentRecord) : String :=
  inc.date ++ "," ++ "\"" ++ inc.state ++ "\"" ++ "," ++ "\"" ++ inc.city_county ++ "\"" ++
    "," ++ "\"" ++ inc.address ++ "\"" ++ "," ++ toString inc.killed ++ "," ++ toString inc.injured

/-- Whether a rendered CSV cell is wrapped in double quotes. -/
def wrappedInQuotes (s : String) : Bool :=
  match s.data with
  | '"' :: rest => !rest.isEmpty && rest.getLast? == some '"'
  | _ => false

/-- Splitting a character list at every occurrence of a separator. -/
def splitOnChar (sep : Char) : List Char → List (List Char)
  | [] => [[]]
  | a :: rest =>
    let r := splitOnChar sep rest
    if a == sep then [] :: r
    else
      match r with
      | [] => [[a]]
      | h :: t => (a :: h) :: t

/-- Removing one layer of surrounding double quotes from a cell, if present. -/
def unquoteChars (xs : List Char) : List Char :=
  match xs with
  | '"' :: rest => if rest.getLast? == some '"' then rest.dropLast else xs
  | _ => xs

/-- Reading a decimal digit string, accumulator form. -/
def charsToNatAux (acc : Nat) : List Char → Option Nat
  | [] => some acc
  | c :: cs => if c.isDigit then charsToNatAux (10 * acc + (c.toNat - 48)) cs else none

/-- Reading a nonempty all-digit character list as a number. -/
def charsToNat (xs : List Char) : Option Nat :=
  match xs with
  | [] => none
  | _ => charsToNatAux 0 xs

/-- Reading a CSV value cell back: an all-digit cell as its number, any
other cell as its literal text. -/
def parseCellChars (xs : List Char) : SummaryCell :=
  match charsToNat xs with
  | some n => .num n
  | none => .text (String.mk xs)

/-- The round-trip parser the spec describes for the summary CSV: split
into lines, read the years from the header, and for each remaining line
unquote the category cell and pair each value cell with the year in the
same header position. -/
def parseSummaryCSV (csv : String) : List (String × List (Nat × SummaryCell)) :=
  match (splitOnChar '\n' csv.data).filter (fun l => !l.isEmpty) with
  | [] => []
  | hdr :: rows =>
    let years := ((splitOnChar ',' hdr).drop 1).map (fun c => (charsToNat c).getD 0)
    rows.map fun line =>
      match splitOnChar ',' line with
      | [] => ("", [])
      | catCell :: valCells =>
        (String.mk (unquoteChars catCell), years.zip (valCells.map parseCellChars))

/-- A grounding citation carried back with a generated response. -/
structure SourceChunk where
  uri : String
  title : Option String
deriving DecidableEq

/-- The `groundingMetadata` of a response candidate. -/
structure GroundingMetadata where
  groundingChunks : Option (List SourceChunk)
deriving DecidableEq

/-- One response candidate. -/
structure Candidate where
  groundingMetadata : Option GroundingMetadata
deriving DecidableEq

/-- The shape of a `GenerateContentResponse` as the services read it:
an optional text and an optional candidate list. -/
structure GenResponse where
  text : Option String
  candidates : Option (List Candidate)
deriving DecidableEq

/-- The `{text, sources}` record every service call resolves to. -/
structure GroundedResponse where
  text : String
  sources : List SourceChunk
deriving DecidableEq

/-- A failure thrown by the SDK or transport. -/
inductive ApiError where
  | transport (msg : String)
deriving DecidableEq

/-- JavaScript `v || d` on an optional string: the default is taken when
the value is absent or the empty string (which is falsy). -/
def jsOrString (v : Option String) (d : String) : String :=
  match v with
  | some s => if s.isEmpty then d else s
  | none => d

/-- The optional chain `response.candidates?.[0]?.groundingMetadata?.groundingChunks || []`. -/
def jsChunks (r : GenResponse) : List SourceChunk :=
  ((((r.candidates).bind List.head?).bind Candidate.groundingMetadata).bind
    GroundingMetadata.groundingChunks).getD []

/-- `generateEnhancedDataReport` from `services/gemini.ts`, with the
network call's outcome made explicit: the whole body runs inside a
`try`, and the `catch` returns the fixed fallback record. -/
def generateEnhancedDataReport (outcome : Except ApiError GenResponse) : GroundedResponse :=
  match outcome with
  | .ok r => ⟨jsOrString r.text "No analysis available.", jsChunks r⟩
  | .error _ => ⟨"Error generating report. Please check your API key and connection.", []⟩

/-- The request shape `findLocalSafetyResources` sends: the prompt text
and the optional `retrievalConfig.latLng` bias. -/
structure MapsRequest where
  prompt : String
  retrievalBias : Option (ℚ × ℚ)
deriving DecidableEq

/-- JavaScript truthiness of an optional numeric argument: `undefined`
and `0` are falsy. -/
def jsTruthy (x : Option ℚ) : Bool :=
  match x with
  | some v => decide (v ≠ 0)
  | none => false

/-- The `locationPrompt` ternary in `findLocalSafetyResources`, keyed on
`lat && lng`. -/
def locationPrompt (lat lng : Option ℚ) : String :=
  if jsTruthy lat && jsTruthy lng then
    "Near my current location (Lat: " ++ toString (lat.getD 0) ++ ", Lng: " ++
      toString (lng.getD 0) ++ ")"
  else
    "In major US metropolitan areas"

/-- The fixed leading text of the resources prompt. -/
def resourcesPromptPre : String :=
  "Find 5 highly-rated community safety centers, trauma support groups, or victim advocate offices "

/-- The fixed trailing text of the resources prompt. -/
def resourcesPromptPost : String :=
  ". Provide their details and why they are important for public safety."

/-- The outgoing request `findLocalSafetyResources` builds: the prompt
around `locationPrompt`, and the retrieval bias attached only when
`lat && lng` is truthy. -/
def buildMapsRequest (lat lng : Option ℚ) : MapsRequest :=
  { prompt := resourcesPromptPre ++ locationPrompt lat lng ++ resourcesPromptPost
    retrievalBias :=
      if jsTruthy lat && jsTruthy lng then some (lat.getD 0, lng.getD 0) else none }

/-- The fixed fallback of `findLocalSafetyResources`. -/
def resourcesFallback : GroundedResponse := ⟨"Error finding local resources.", []⟩

/-- `findLocalSafetyResources` from `services/gemini.ts`, with the network
call's outcome made explicit; the whole body is inside a `try` whose
`catch` returns the distinct fixed fallback. -/
def findLocalSafetyResources (_lat _lng : Option ℚ) (outcome : Except ApiError GenResponse) :
    GroundedResponse :=
  match outcome with
  | .ok r => ⟨jsOrString r.text "No resources found.", jsChunks r⟩
  | .error _ => resourcesFallback

/-- A chat participant. -/
inductive ChatRole where
  | user
  | assistant
deriving DecidableEq

/-- One message of a conversation. -/
structure ChatMessage where
  role : ChatRole
  content : String
deriving DecidableEq

/-- The `Chat` object created by `ai.chats.create`: its identity (an
allocation number), its fixed system instruction, and its conversation
history. -/
structure ChatSession where
  id : Nat
  systemInstruction : String
  history : List ChatMessage
deriving DecidableEq

/-- The module-level state of `services/gemini.ts`: the next allocation
number and the `currentChat` variable (`null` when uninitialized). -/
structure GeminiState where
  nextId : Nat
  currentChat : Option ChatSession
deriving DecidableEq

/-- The fixed system instruction of `startProChat`, verbatim. -/
def proSystemInstruction : String :=
  "You are the GVA Data Architect, an elite AI expert in public safety, criminology, and data science. \n      You have access to a 10-year dataset of gun violence metrics and a sample of recent incidents.\n      Your goal is to provide deep, evidence-based, and compassionate analysis. \n      When asked about data methodology, explain the scraping process (Selenium/BeautifulSoup) and the importance of data normalization.\n      Always maintain a professional and analytical tone."

/-- `startProChat`: create a fresh session carrying the fixed system
instruction and an empty history, and store it in `currentChat`,
replacing whatever was there. Returns the new session and state. -/
def startProChat (st : GeminiState) : ChatSession × GeminiState :=
  let c : ChatSession := ⟨st.nextId, proSystemInstruction, []⟩
  (c, ⟨st.nextId + 1, some c⟩)

/-- The fixed fallback string of `sendChatMessage`. -/
def chatFallbackText : String :=
  "The AI Expert is currently unavailable. Please check your configuration."

/-- Appending one exchange to a session's history, as a successful
`sendMessage` does. -/
def appendExchange (c : ChatSession) (userMsg reply : String) : ChatSession :=
  { c with history := c.history ++ [⟨ChatRole.user, userMsg⟩, ⟨ChatRole.assistant, reply⟩] }

/-- The `try { sendMessage } catch` part of `sendChatMessage`: a send
failure is caught and yields the fixed fallback with the state unchanged;
a success yields `response.text || "No response received from the model."`
and records the exchange on the current session. -/
def sendOnSession (st : GeminiState) (c : ChatSession) (sendOutcome : Except ApiError GenResponse)
    (message : String) : String × GeminiState :=
  match sendOutcome with
  | .ok r =>
    let reply := jsOrString r.text "No response received from the model."
    (reply, ⟨st.nextId, some (appendExchange c message reply)⟩)
  | .error _ => (chatFallbackText, st)

/-- `sendChatMessage`: if `currentChat` is null, `startProChat()` runs
first, outside the `try` block, so a failure there (`createOutcome`)
propagates as an error; the send itself runs inside the `try`. -/
def sendChatMessage (st : GeminiState) (createOutcome : Except ApiError Unit)
    (sendOutcome : Except ApiError GenResponse) (message : String) :
    Except ApiError (String × GeminiState) :=
  match st.currentChat with
  | some c => .ok (sendOnSession st c sendOutcome message)
  | none =>
    match createOutcome with
    | .error e => .error e
    | .ok _ =>
      let p := startProChat st
      .ok (sendOnSession p.2 p.1 sendOutcome message)

/-- Whether an `Except` value is a success. -/
def exceptOk {α : Type} (x : Except ApiError α) : Bool :=
  match x with
  | .ok _ => true
  | .error _ => false

/-- Stripping leading and trailing whitespace, the semantics of
JavaScript `String.prototype.trim`. -/
def trimChars (xs : List Char) : List Char :=
  ((xs.dropWhile Char.isWhitespace).reverse.dropWhile Char.isWhitespace).reverse

/-- `userInput.trim()`. -/
def jsTrim (s : String) : String := String.mk (trimChars s.data)

/-- The chat-relevant UI state of the main component: the input box, the
`isTyping` flag, and the number of chat requests currently in flight. -/
structure UIState where
  userInput : String
  isTyping : Bool
  inFlight : Nat
deriving DecidableEq

/-- The chat-relevant UI events: editing the input, submitting
(`handleSendMessage`), and a pending request resolving. -/
inductive UIEvent where
  | setInput (s : String)
  | sendAttempt
  | resolve
deriving DecidableEq

/-- One step of the UI: `handleSendMessage` returns without issuing a
request when the trimmed input is empty or a request is pending
(`isTyping`); otherwise it clears the input, sets `isTyping`, and issues
one request. A resolution clears `isTyping`. -/
def uiStep (st : UIState) : UIEvent → UIState
  | .setInput s => { st with userInput := s }
  | .sendAttempt =>
    if (jsTrim st.userInput).isEmpty || st.isTyping then st
    else { userInput := "", isTyping := true, inFlight := st.inFlight + 1 }
  | .resolve =>
    if st.inFlight = 0 then st
    else { st with isTyping := false, inFlight := st.inFlight - 1 }

/-- The initial UI state: empty input, not typing, nothing in flight. -/
def uiInit : UIState := ⟨"", false, 0⟩

/-- The states the UI can reach from its initial state. -/
inductive UIReachable : UIState → Prop
  | init : UIReachable uiInit
  | step (st : UIState) (e : UIEvent) : UIReachable st → UIReachable (uiStep st e)

/-- The first `MOCK_DATA` record, used as a concrete input below. -/
def mockHead : IncidentRecord :=
  ⟨"Jan 8, 2025", "Illinois", "Chicago", "1200 Block of S Western Ave", 1, 3, some "/incident/123456"⟩

/- ===================== Theorems ===================== -/

/-- Strings are equal when their character data is. -/
theorem stringEqOfData (a b : String) (h : a.data = b.data) : a = b :=
  congrArg String.mk h

/-- `strHasPre p s` holds exactly when `s` extends `p`. -/
theorem strHasPre_iff (p : List Char) : ∀ s : List Char,
    strHasPre p s = true ↔ ∃ t, s = p ++ t := by
  induction p with
  | nil => intro s; simp [strHasPre]
  | cons a ps ih =>
    intro s
    cases s with
    | nil =>
      simp [strHasPre]
    | cons b ss =>
      simp only [strHasPre, Bool.and_eq_true, beq_iff_eq, ih, List.cons_append,
        List.cons.injEq]
      constructor
      · rintro ⟨hab, t, ht⟩
        exact ⟨t, hab.symm, ht⟩
      · rintro ⟨t, hba, ht⟩
        exact ⟨hba.symm, t, ht⟩

/-- `subListB p s` holds exactly when `p` occurs contiguously inside `s`. -/
theorem subListB_iff (p : List Char) : ∀ s : List Char,
    subListB p s = true ↔ ∃ l r, s = l ++ p ++ r := by
  intro s
  induction s with
  | nil =>
    constructor
    · intro h
      cases p with
      | nil => exact ⟨[], [], rfl⟩
      | cons a ps => simp [subListB, strHasPre] at h
    · rintro ⟨l, r, h⟩
      cases l with
      | cons x xs => simp at h
      | nil =>
        cases p with
        | cons y ys => simp at h
        | nil => rfl
  | cons b ss ih =>
    constructor
    · intro h
      have h' : strHasPre p (b :: ss) = true ∨ subListB p ss = true := by
        simpa [subListB, Bool.or_eq_true] using h
      rcases h' with h1 | h2
      · rcases (strHasPre_iff p (b :: ss)).mp h1 with ⟨t, ht⟩
        exact ⟨[], t, by simpa using ht⟩
      · rcases ih.mp h2 with ⟨l, r, hr⟩
        exact ⟨b :: l, r, by simp [hr]⟩
    · rintro ⟨l, r, hr⟩
      cases l with
      | nil =>
        have h1 : strHasPre p (b :: ss) = true :=
          (strHasPre_iff _ _).mpr ⟨r, by simpa using hr⟩
        simp [subListB, h1]
      | cons x l' =>
        obtain ⟨-, hx⟩ : b = x ∧ ss = l' ++ (p ++ r) := by
          simpa using hr
        have h2 : subListB p ss = true := ih.mpr ⟨l', r, by simp [hx]⟩
        simp [subListB, h2]

/-- The empty pattern occurs in every string. -/
theorem subListB_nil (xs : List Char) : subListB ([] : List Char) xs = true := by
  cases xs <;> rfl

/-- C1: For every incident list `L` and query pair, the filter returns the
ordered sublist of `L` whose records case-insensitively contain the state
query in `state` and the city query in `city_county`; membership is exactly
characterized, empty queries return `L` unchanged, and the empty list
yields the empty output. -/
theorem filteredIncidents_spec (L : List IncidentRecord) (s c : String) :
    (filteredIncidents L s c).Sublist L ∧
    (∀ itm : IncidentRecord, itm ∈ filteredIncidents L s c ↔
      itm ∈ L ∧
      (∃ pre post, (jsToLower itm.state).data = pre ++ (jsToLower s).data ++ post) ∧
      (∃ pre post, (jsToLower itm.city_county).data = pre ++ (jsToLower c).data ++ post)) ∧
    filteredIncidents L "" "" = L ∧
    filteredIncidents [] s c = [] := by
  refine ⟨List.filter_sublist L, ?_, ?_, rfl⟩
  · intro itm
    rw [filteredIncidents, List.mem_filter]
    simp [matchesFilters, strIncludes, Bool.and_eq_true, subListB_iff, and_assoc]
  · have hall : ∀ a : IncidentRecord, matchesFilters "" "" a = true := by
      intro a
      have h1 : jsToLower "" = "" := rfl
      simp [matchesFilters, strIncludes, h1, subListB_nil]
    rw [filteredIncidents]
    induction L with
    | nil => rfl
    | cons x xs ih => simp [List.filter, hall x, ih]

/-- Each incident row joined with commas is exactly the spec's template line. -/
theorem incidentRowLine (inc : IncidentRecord) :
    joinSep "," (incidentCells inc) = specIncidentLine inc := by
  apply stringEqOfData
  simp [joinSep, incidentCells, specIncidentLine, quoteWrap, String.data_append,
    List.append_assoc]

/-- C2: The summary CSV of the fixed 10-year table is the header line
`Category,2015,...,2024` followed by one line per category; the first and
last rendered category lines are exactly as the templates read, with
plain decimal numbers and the sentinel rendered literally as `Pending`;
every category carries one value per year; and for every incident list
the incident CSV is the fixed header followed by one template line per
record, joined by newlines. -/
theorem csv_export_templates :
    downloadSummaryCSVContent =
      "Category,2015,2016,2017,2018,2019,2020,2021,2022,2023,2024\n" ++
        String.join (gvaCategories.map fun p => summaryLine p.1 p.2) ∧
    (gvaCategories.map fun p => summaryLine p.1 p.2).head? =
      some "\"Deaths (Willful/Accidental)\",13777,15375,15907,15071,15667,19850,21383,20514,19135,16725\n" ∧
    (gvaCategories.map fun p => summaryLine p.1 p.2).getLast? =
      some "\"Suicide by Firearm (CDC)\",22018,22938,23854,24432,23941,24292,26328,27038,27310,Pending\n" ∧
    gvaCategories.all (fun p => p.2.length == gvaYears.length) = true ∧
    (∀ incs : List IncidentRecord,
      incidentsCSV incs =
        "Date,State,City/County,Address,Killed,Injured" ++ "\n" ++
          joinSep "\n" (incs.map specIncidentLine)) := by
  refine ⟨rfl, rfl, rfl, rfl, ?_⟩
  intro incs
  simp only [incidentsCSV, incidentRowLine]
  rfl

/-- Wrapping in quotes prepends and appends one double-quote character. -/
theorem quoteWrap_data (s : String) : (quoteWrap s).data = '"' :: (s.data ++ ['"']) := by
  have h : ("\"" : String).data = ['"'] := rfl
  simp [quoteWrap, String.data_append, h]

/-- Unquoting undoes quote wrapping. -/
theorem unquote_quoteWrap (s : String) : unquoteChars (quoteWrap s).data = s.data := by
  rw [quoteWrap_data]
  simp [unquoteChars, List.getLast?_concat, List.dropLast_concat]

/-- C3 counterexample: the first `MOCK_DATA` record's date `"Jan 8, 2025"`
contains a comma, yet the cell emitted for it in the incident CSV is the
raw date, not wrapped in double quotes, so its comma reaches the output
unescaped. -/
theorem csv_date_field_unquoted :
    mockData.head? = some mockHead ∧
    mockHead.date.data.contains ',' = true ∧
    (incidentCells mockHead).head? = some mockHead.date ∧
    wrappedInQuotes mockHead.date = false ∧
    joinSep "," (incidentCells mockHead) =
      "Jan 8, 2025,\"Illinois\",\"Chicago\",\"1200 Block of S Western Ave\",1,3" := by
  exact ⟨rfl, by decide, rfl, by decide, by rfl⟩

/-- C3 amended: in the exported CSVs every string-typed field except the
incident date - the state, city_county and address cells, and the summary
category cell - is unconditionally wrapped in double quotes (and unquoting
recovers the value); the date cell is emitted as the raw date string,
unquoted even when it contains a comma or quote. -/
theorem csv_quoting_amended (inc : IncidentRecord) (s cat : String) (vals : List SummaryCell) :
    (incidentCells inc).head? = some inc.date ∧
    ((incidentCells inc).drop 1).take 3 =
      [quoteWrap inc.state, quoteWrap inc.city_county, quoteWrap inc.address] ∧
    (quoteWrap s).data = '"' :: (s.data ++ ['"']) ∧
    unquoteChars (quoteWrap s).data = s.data ∧
    summaryLine cat vals = quoteWrap cat ++ "," ++ joinSep "," (vals.map renderCell) ++ "\n" := by
  exact ⟨rfl, rfl, quoteWrap_data s, unquote_quoteWrap s, rfl⟩

/-- C4: Parsing the summary CSV produced for the static 10-year table -
splitting lines, unquoting the category cell, and pairing each value cell
with the year in the same header position - recovers exactly the original
category-to-per-year-values mapping, with `Pending` recovered as literal
text. -/
theorem summary_csv_round_trip :
    parseSummaryCSV downloadSummaryCSVContent =
      gvaCategories.map (fun p => (p.1, gvaYears.zip p.2)) ∧
    parseCellChars "Pending".data = SummaryCell.text "Pending" := by
  exact ⟨rfl, rfl⟩

/-- C10: With an empty filtered incident list the export does nothing: no
CSV text and no download are produced; and the export is skipped exactly
when the list is empty. -/
theorem empty_export_no_download (L : List IncidentRecord) (today : String) :
    downloadFilteredIncidentsCSV [] today = none ∧
    (downloadFilteredIncidentsCSV L today).isNone = L.isEmpty := by
  refine ⟨rfl, ?_⟩
  cases L <;> rfl

/-- `v || d` is nonempty whenever the default is. -/
theorem jsOrString_nonempty (v : Option String) (d : String) (hd : d.isEmpty = false) :
    (jsOrString v d).isEmpty = false := by
  cases v with
  | none => exact hd
  | some s =>
    cases hs : s.isEmpty with
    | true => simpa [jsOrString, hs] using hd
    | false => simp [jsOrString, hs]

/-- C5: `generateEnhancedDataReport` never propagates an error: every
failure resolves to the fixed fallback record with empty sources, every
resolution carries nonempty text, and a success carries the response's
grounding chunks (possibly the empty list) as its sources. -/
theorem report_error_swallowed (e : ApiError) (r : GenResponse)
    (outcome : Except ApiError GenResponse) :
    generateEnhancedDataReport (Except.error e) =
      ⟨"Error generating report. Please check your API key and connection.", []⟩ ∧
    ((generateEnhancedDataReport outcome).text).isEmpty = false ∧
    (generateEnhancedDataReport (Except.ok r)).sources = jsChunks r := by
  refine ⟨rfl, ?_, rfl⟩
  cases outcome with
  | error e' =>
    show ("Error generating report. Please check your API key and connection." : String).isEmpty
      = false
    decide
  | ok r' => exact jsOrString_nonempty r'.text _ (by decide)

/-- C6 counterexample: with no session and a failing `chats.create`, the
creation runs outside the `try` block, so `sendChatMessage` propagates
the error instead of resolving to the fallback string. -/
theorem chat_create_failure_propagates :
    sendChatMessage ⟨0, none⟩ (Except.error (ApiError.transport "create failed"))
      (Except.ok ⟨some "hi", none⟩) "hello" =
      Except.error (ApiError.transport "create failed") := rfl

/-- C6 amended: `sendChatMessage` creates a session first when none
exists; whenever a session exists or creation succeeds, it never throws,
and a failure of the send itself resolves to the fixed fallback string;
only a failure during the uncaught session creation would propagate. -/
theorem chat_send_failure_fallback (n : Nat) (c : ChatSession) (m : String)
    (co : Except ApiError Unit) (so : Except ApiError GenResponse) (e : ApiError) :
    sendChatMessage ⟨n, some c⟩ co (Except.error e) m =
      Except.ok (chatFallbackText, ⟨n, some c⟩) ∧
    exceptOk (sendChatMessage ⟨n, some c⟩ co so m) = true ∧
    sendChatMessage ⟨n, none⟩ (Except.ok ()) (Except.error e) m =
      Except.ok (chatFallbackText, ⟨n + 1, some ⟨n, proSystemInstruction, []⟩⟩) ∧
    exceptOk (sendChatMessage ⟨n, none⟩ (Except.ok ()) so m) = true := by
  refine ⟨rfl, ?_, rfl, ?_⟩ <;> cases so <;> rfl

/-- C8: The chat session is a two-state machine. `startProChat` always
installs a fresh session with the fixed system instruction and an empty
history, replacing whatever was stored (no merge, no history replay);
a send on an existing session keeps that very session (same identity,
same instruction); a first message with no session transitions to an
active session carrying the fixed instruction; and re-initialization
yields a session distinct from any previously allocated one. -/
theorem chat_session_machine (n : Nat) (oc : Option ChatSession) (c : ChatSession)
    (co : Except ApiError Unit) (so : Except ApiError GenResponse) (m : String) :
    startProChat ⟨n, oc⟩ =
      (⟨n, proSystemInstruction, []⟩, ⟨n + 1, some ⟨n, proSystemInstruction, []⟩⟩) ∧
    (∃ out st', sendChatMessage ⟨n, some c⟩ co so m = Except.ok (out, st') ∧
      ∃ c', st'.currentChat = some c' ∧ c'.id = c.id ∧
        c'.systemInstruction = c.systemInstruction) ∧
    (∃ out st', sendChatMessage ⟨n, none⟩ (Except.ok ()) so m = Except.ok (out, st') ∧
      ∃ c', st'.currentChat = some c' ∧ c'.id = n ∧
        c'.systemInstruction = proSystemInstruction) ∧
    (c.id < n → (startProChat ⟨n, some c⟩).1.id ≠ c.id) := by
  refine ⟨rfl, ?_, ?_, ?_⟩
  · cases so with
    | ok r => exact ⟨_, _, rfl, _, rfl, rfl, rfl⟩
    | error e => exact ⟨_, _, rfl, _, rfl, rfl, rfl⟩
  · cases so with
    | ok r => exact ⟨_, _, rfl, _, rfl, rfl, rfl⟩
    | error e => exact ⟨_, _, rfl, _, rfl, rfl, rfl⟩
  · intro h
    exact Nat.ne_of_gt h

/-- Witness for C8 at a concrete prior session with a smaller id. -/
theorem chat_session_machine_witness :
    (⟨0, "old", []⟩ : ChatSession).id < 1 ∧
    (startProChat ⟨1, some ⟨0, "old", []⟩⟩).1.id ≠ (⟨0, "old", []⟩ : ChatSession).id := by
  refine ⟨by decide, ?_⟩
  exact (chat_session_machine 1 none ⟨0, "old", []⟩ (Except.ok ())
    (Except.error (ApiError.transport "x")) "hi").2.2.2 (by decide)

/-- C7 counterexample: calling with both coordinates supplied but equal
to 0 takes the generic branch - no retrieval bias is attached and the
prompt carries the "In major US metropolitan areas" phrase - because
`lat && lng` treats the number 0 as falsy. -/
theorem zero_coords_take_generic_branch :
    (buildMapsRequest (some 0) (some 0)).retrievalBias = none ∧
    (buildMapsRequest (some 0) (some 0)).prompt =
      resourcesPromptPre ++ "In major US metropolitan areas" ++ resourcesPromptPost := by
  constructor
  · decide
  · have h0 : jsTruthy (some 0) = false := by decide
    simp [buildMapsRequest, locationPrompt, h0]

/-- C7 amended: when both coordinates are supplied and both are nonzero,
the request carries them as retrieval bias and the prompt uses the
"Near my current location" phrasing; when either coordinate is absent or
equal to 0, the prompt uses the generic "In major US metropolitan areas"
phrase and no retrieval bias is attached; on any failure the call
resolves to the distinct fixed fallback, and on success its text is
nonempty. -/
theorem coords_branching_amended (a b : ℚ) (lat lng : Option ℚ) (e : ApiError)
    (r : GenResponse) :
    (a ≠ 0 → b ≠ 0 →
      buildMapsRequest (some a) (some b) =
        ⟨resourcesPromptPre ++
          ("Near my current location (Lat: " ++ toString a ++ ", Lng: " ++ toString b ++ ")") ++
          resourcesPromptPost, some (a, b)⟩) ∧
    buildMapsRequest none lng =
      ⟨resourcesPromptPre ++ "In major US metropolitan areas" ++ resourcesPromptPost, none⟩ ∧
    buildMapsRequest lat none =
      ⟨resourcesPromptPre ++ "In major US metropolitan areas" ++ resourcesPromptPost, none⟩ ∧
    buildMapsRequest (some 0) lng =
      ⟨resourcesPromptPre ++ "In major US metropolitan areas" ++ resourcesPromptPost, none⟩ ∧
    buildMapsRequest lat (some 0) =
      ⟨resourcesPromptPre ++ "In major US metropolitan areas" ++ resourcesPromptPost, none⟩ ∧
    findLocalSafetyResources lat lng (Except.error e) = resourcesFallback ∧
    ((findLocalSafetyResources lat lng (Except.ok r)).text).isEmpty = false := by
  have h0 : jsTruthy (some 0) = false := by decide
  have hn : jsTruthy none = false := rfl
  refine ⟨?_, rfl, ?_, ?_, ?_, rfl, jsOrString_nonempty r.text _ (by decide)⟩
  · intro ha hb
    simp [buildMapsRequest, locationPrompt, jsTruthy, ha, hb]
  · simp [buildMapsRequest, locationPrompt, hn]
  · simp [buildMapsRequest, locationPrompt, h0]
  · simp [buildMapsRequest, locationPrompt, h0]

/-- Witness for C7 at the concrete nonzero coordinates (1, 1). -/
theorem coords_branching_amended_witness :
    (1 : ℚ) ≠ 0 ∧
    buildMapsRequest (some 1) (some 1) =
      ⟨resourcesPromptPre ++
        ("Near my current location (Lat: " ++ toString (1 : ℚ) ++ ", Lng: " ++
          toString (1 : ℚ) ++ ")") ++
        resourcesPromptPost, some (1, 1)⟩ := by
  have h : (1 : ℚ) ≠ 0 := by norm_num
  exact ⟨h, (coords_branching_amended 1 1 none none (ApiError.transport "x")
    ⟨none, none⟩).1 h h⟩

/-- Every reachable UI state has at most one chat request in flight, and
a cleared `isTyping` means nothing is in flight. -/
theorem ui_invariant (st : UIState) (h : UIReachable st) :
    st.inFlight ≤ 1 ∧ (st.isTyping = false → st.inFlight = 0) := by
  induction h with
  | init => exact ⟨by decide, fun _ => rfl⟩
  | step st' e hst ih =>
    cases e with
    | setInput s => simpa [uiStep] using ih
    | sendAttempt =>
      by_cases hc : ((jsTrim st'.userInput).isEmpty || st'.isTyping) = true
      · simpa [uiStep, hc] using ih
      · have hc' : ((jsTrim st'.userInput).isEmpty || st'.isTyping) = false := by
          simpa using hc
        have hT : st'.isTyping = false := (Bool.or_eq_false_iff.mp hc').2
        have h0 : st'.inFlight = 0 := ih.2 hT
        simp [uiStep, hc, h0]
    | resolve =>
      by_cases hz : st'.inFlight = 0
      · simp only [uiStep, if_pos hz]
        exact ih
      · have h1 := ih.1
        simp only [uiStep, if_neg hz]
        constructor
        · omega
        · intro _
          omega

/-- C9: In every reachable UI state at most one chat request is in
flight; while a request is pending (`isTyping` set) a send attempt
leaves the state unchanged and issues no request, and so does a send
attempt whose trimmed input is empty. -/
theorem chat_single_flight (st : UIState) :
    (UIReachable st → st.inFlight ≤ 1) ∧
    (st.isTyping = true → uiStep st UIEvent.sendAttempt = st) ∧
    ((jsTrim st.userInput).isEmpty = true → uiStep st UIEvent.sendAttempt = st) := by
  refine ⟨fun h => (ui_invariant st h).1, ?_, ?_⟩
  · intro hT
    simp [uiStep, hT]
  · intro hE
    simp [uiStep, hE]

/-- Witness for C9: the state reached by typing "x" and sending is
reachable, satisfies the bound, and gates further sends; the initial
state gates whitespace-only sends. -/
theorem chat_single_flight_witness :
    UIReachable (⟨"", true, 1⟩ : UIState) ∧
    (⟨"", true, 1⟩ : UIState).inFlight ≤ 1 ∧
    uiStep ⟨"", true, 1⟩ UIEvent.sendAttempt = ⟨"", true, 1⟩ ∧
    uiStep uiInit UIEvent.sendAttempt = uiInit := by
  have h2 : uiStep (uiStep uiInit (UIEvent.setInput "x")) UIEvent.sendAttempt =
      (⟨"", true, 1⟩ : UIState) := by decide
  have hr : UIReachable (⟨"", true, 1⟩ : UIState) :=
    h2 ▸ UIReachable.step _ _ (UIReachable.step _ _ UIReachable.init)
  exact ⟨hr, (chat_single_flight _).1 hr, (chat_single_flight _).2.1 rfl,
    (chat_single_flight uiInit).2.2 (by decide)⟩
